import Mathlib

/-!
Shallow embedding of the file src/compare_guess_random/src/main.rs, a
single-round number-guessing program: it prints a greeting, draws a secret
in [1,101), prints the secret, prompts, reads one line from stdin, trims
and parses it as a u32 (aborting with a fixed diagnostic on read or parse
failure), echoes the guess, and prints exactly one of three comparison
messages chosen by matching on guess.cmp(secret_number).
-/

namespace GuessGame

/-- Model of rand thread_rng gen_range(lo, hi): as documented in the
comments of main.rs (quoting the rand crate documentation), the result is
inclusive on the lower bound and exclusive on the upper bound.  The
underlying random draw is abstracted as an arbitrary natural number r; the
result is lo + r % (hi - lo), which ranges over [lo, hi) whenever lo < hi. -/
def gen_range (lo hi r : Nat) : Nat :=
  lo + r % (hi - lo)

/-- Characters with the Unicode White_Space property, which is what the
Rust method str::trim strips from both ends of a string. -/
def isRustWhitespace (c : Char) : Bool :=
  c.toNat = 0x09 || c.toNat = 0x0A || c.toNat = 0x0B || c.toNat = 0x0C ||
  c.toNat = 0x0D || c.toNat = 0x20 || c.toNat = 0x85 || c.toNat = 0xA0 ||
  c.toNat = 0x1680 || (0x2000 ≤ c.toNat && c.toNat ≤ 0x200A) ||
  c.toNat = 0x2028 || c.toNat = 0x2029 || c.toNat = 0x202F ||
  c.toNat = 0x205F || c.toNat = 0x3000

/-- Model of the Rust method str::trim: remove leading and trailing
whitespace. -/
def rustTrim (s : String) : String :=
  String.mk (((s.data.dropWhile isRustWhitespace).reverse.dropWhile
    isRustWhitespace).reverse)

/-- Numeric value of a list of decimal digit characters, accumulated most
significant first, exactly as from_str_radix accumulates digit by digit. -/
def natOfDigits (ds : List Char) : Nat :=
  ds.foldl (fun a c => a * 10 + (c.toNat - 48)) 0

/-- Sign handling of u32 from_str: a single leading plus sign is stripped;
a minus sign is not special for an unsigned type (it is left in place and
later rejected as a non-digit). -/
def stripPlus (cs : List Char) : List Char :=
  match cs with
  | '+' :: rest => rest
  | cs => cs

/-- Model of str parse to u32 (u32 from_str, radix 10): an optional
leading plus sign, then one or more ASCII decimal digits, and the value
must fit in 32 bits.  Returns none exactly when the Rust call returns an
Err value. -/
def parseU32 (s : String) : Option Nat :=
  let ds := stripPlus s.data
  if ds.isEmpty then none
  else if ds.all Char.isDigit then
    if natOfDigits ds < 4294967296 then some (natOfDigits ds) else none
  else none

/-- The result of the read_line call on stdin: either the text that was
appended to the empty buffer (the line read, including any terminator), or
a stream error.  Note that at end of input read_line reads zero bytes and
returns an Ok value, so end of input is modelled as ok with the empty
string, not as err. -/
inductive ReadLine where
  | ok (line : String)
  | err
deriving DecidableEq

/-- Observable result of one run of the program: the lines printed to
standard output, and, when the program aborted via expect, the fixed
diagnostic message it panicked with (printed to the error stream).
A panicMsg of none means the process terminated normally. -/
structure RunResult where
  stdout : List String
  panicMsg : Option String
deriving DecidableEq

/-- Process exit code: 0 on normal completion, 101 (the Rust panic exit
status, in any case non-zero) when the run aborted via expect. -/
def RunResult.exitCode (res : RunResult) : Nat :=
  if res.panicMsg.isSome then 101 else 0

/-- Shallow embedding of fn main: r abstracts the draw taken from the
thread-local generator, stdin the outcome of the one read_line call.
The sequence of println calls, gen_range, read_line with expect, trim and
parse with expect, and the final match on guess.cmp(secret_number) is
reproduced step for step. -/
def mainRun (r : Nat) (stdin : ReadLine) : RunResult :=
  let out := ["Guess the number!"]
  let secret_number := gen_range 1 101 r
  let out := out ++ ["The secret number is: " ++ toString secret_number]
  let out := out ++ ["Please input your guess."]
  match stdin with
  | .err => { stdout := out, panicMsg := some "Failed to read line" }
  | .ok line =>
    match parseU32 (rustTrim line) with
    | none => { stdout := out, panicMsg := some "Please type a number!" }
    | some guess =>
      let out := out ++ ["You guessed: " ++ toString guess]
      match compare guess secret_number with
      | .lt => { stdout := out ++ ["Too small!"], panicMsg := none }
      | .gt => { stdout := out ++ ["Too big!"], panicMsg := none }
      | .eq => { stdout := out ++ ["You win!"], panicMsg := none }

/-- The three comparison-outcome messages. -/
def outcomeLines : List String := ["Too small!", "Too big!", "You win!"]

/-- How many comparison-outcome messages appear in an output trace. -/
def countOutcomes (out : List String) : Nat :=
  (out.filter (fun l => decide (l ∈ outcomeLines))).length

/-- Sign handling of the reference reading below: an optional plus or
minus sign. -/
def signSplit (cs : List Char) : Int × List Char :=
  match cs with
  | '+' :: rest => (1, rest)
  | '-' :: rest => (-1, rest)
  | cs => (1, cs)

/-- Reference reading of the spec notion of the trimmed text denoting a
base-10 integer: an optional sign followed by one or more decimal digits,
with no width restriction.  Used only to compare against the u32-limited
parseU32 taken from the source. -/
def denotesInt (s : String) : Option Int :=
  let p := signSplit s.data
  if !p.2.isEmpty && p.2.all Char.isDigit then
    some (p.1 * (natOfDigits p.2 : Int))
  else none

example : mainRun 49 (.ok "50\n") =
    { stdout := ["Guess the number!", "The secret number is: 50",
                 "Please input your guess.", "You guessed: 50", "You win!"],
      panicMsg := none } := by decide

example : mainRun 49 (.ok "10") =
    { stdout := ["Guess the number!", "The secret number is: 50",
                 "Please input your guess.", "You guessed: 10", "Too small!"],
      panicMsg := none } := by decide

example : mainRun 49 (.ok "abc") =
    { stdout := ["Guess the number!", "The secret number is: 50",
                 "Please input your guess."],
      panicMsg := some "Please type a number!" } := by decide

example : rustTrim "  42\n" = "42" := by decide

example : parseU32 "-5" = none := by decide

example : parseU32 "+7" = some 7 := by decide

example : parseU32 "4294967295" = some 4294967295 := by decide

example : parseU32 "4294967296" = none := by decide

example : denotesInt "-5" = some (-5) := by decide

/-! Helper lemmas: distinguishing the fixed output lines from each other. -/

theorem append_ne_of_length_lt (p x m : String) (h : m.length < p.length) :
    p ++ x ≠ m := by
  intro he
  have hl := congrArg String.length he
  rw [String.length_append] at hl
  omega

theorem ne_append_of_length_lt (p x m : String) (h : m.length < p.length) :
    m ≠ p ++ x :=
  fun he => append_ne_of_length_lt p x m h he.symm

theorem head_of_append (p x : String) (c : Char) (h : p.data.head? = some c) :
    (p ++ x).data.head? = some c := by
  rw [String.data_append, List.head?_append]
  rw [h]
  rfl

theorem ne_of_head_ne (a b : String) (ca cb : Char) (ha : a.data.head? = some ca)
    (hb : b.data.head? = some cb) (h : ca ≠ cb) : a ≠ b := by
  intro he
  rw [he, hb] at ha
  exact h (Option.some.inj ha).symm

theorem small_ne_secretLine (s : Nat) :
    "Too small!" ≠ "The secret number is: " ++ toString s :=
  ne_append_of_length_lt _ _ _ (by decide)

theorem big_ne_secretLine (s : Nat) :
    "Too big!" ≠ "The secret number is: " ++ toString s :=
  ne_append_of_length_lt _ _ _ (by decide)

theorem win_ne_secretLine (s : Nat) :
    "You win!" ≠ "The secret number is: " ++ toString s :=
  ne_append_of_length_lt _ _ _ (by decide)

theorem small_ne_echoLine (t : String) :
    "Too small!" ≠ "You guessed: " ++ t :=
  ne_append_of_length_lt _ _ _ (by decide)

theorem big_ne_echoLine (t : String) :
    "Too big!" ≠ "You guessed: " ++ t :=
  ne_append_of_length_lt _ _ _ (by decide)

theorem win_ne_echoLine (t : String) :
    "You win!" ≠ "You guessed: " ++ t :=
  ne_append_of_length_lt _ _ _ (by decide)

theorem echoLine_ne_greeting (t : String) :
    "You guessed: " ++ t ≠ "Guess the number!" :=
  ne_of_head_ne _ _ 'Y' 'G' (head_of_append _ _ _ (by decide)) (by decide)
    (by decide)

theorem echoLine_ne_prompt (t : String) :
    "You guessed: " ++ t ≠ "Please input your guess." :=
  ne_of_head_ne _ _ 'Y' 'P' (head_of_append _ _ _ (by decide)) (by decide)
    (by decide)

theorem echoLine_ne_secretLine (t : String) (s : Nat) :
    "You guessed: " ++ t ≠ "The secret number is: " ++ toString s :=
  ne_of_head_ne _ _ 'Y' 'T' (head_of_append _ _ _ (by decide))
    (head_of_append _ _ _ (by decide)) (by decide)

/-! Helper lemmas: reducing the sign-handling matches. -/

theorem stripPlus_plus (rest : List Char) : stripPlus ('+' :: rest) = rest := rfl

theorem stripPlus_other (c : Char) (rest : List Char) (h : c ≠ '+') :
    stripPlus (c :: rest) = c :: rest := by
  unfold stripPlus
  split
  · next heq => exact absurd (List.cons.inj heq).1 h
  · rfl

theorem signSplit_other (c : Char) (rest : List Char) (h1 : c ≠ '+')
    (h2 : c ≠ '-') : signSplit (c :: rest) = (1, c :: rest) := by
  unfold signSplit
  split
  · next heq => exact absurd (List.cons.inj heq).1 h1
  · next heq => exact absurd (List.cons.inj heq).1 h2
  · rfl

/-! Helper lemmas: closed forms for the three control-flow paths of main. -/

theorem mainRun_err_eq (r : Nat) :
    mainRun r .err =
      { stdout := ["Guess the number!",
                   "The secret number is: " ++ toString (gen_range 1 101 r),
                   "Please input your guess."],
        panicMsg := some "Failed to read line" } := rfl

theorem mainRun_parseFail_eq (r : Nat) (l : String)
    (h : parseU32 (rustTrim l) = none) :
    mainRun r (.ok l) =
      { stdout := ["Guess the number!",
                   "The secret number is: " ++ toString (gen_range 1 101 r),
                   "Please input your guess."],
        panicMsg := some "Please type a number!" } := by
  simp [mainRun, h]

theorem mainRun_ok_eq (r : Nat) (l : String) (g : Nat)
    (h : parseU32 (rustTrim l) = some g) :
    mainRun r (.ok l) =
      { stdout := ["Guess the number!",
                   "The secret number is: " ++ toString (gen_range 1 101 r),
                   "Please input your guess.",
                   "You guessed: " ++ toString g,
                   if g < gen_range 1 101 r then "Too small!"
                   else if gen_range 1 101 r < g then "Too big!"
                   else "You win!"],
        panicMsg := none } := by
  rcases Nat.lt_trichotomy g (gen_range 1 101 r) with hlt | heq | hgt
  · simp [mainRun, h, Nat.compare_eq_lt.mpr hlt, hlt]
  · simp [mainRun, h, heq, Nat.compare_eq_eq.mpr rfl]
  · simp [mainRun, h, Nat.compare_eq_gt.mpr hgt, hgt, Nat.lt_asymm hgt]

theorem mem_run_list_iff (s g : Nat) (m x : String) (hm : m ∈ outcomeLines) :
    (m ∈ ["Guess the number!",
          "The secret number is: " ++ toString s,
          "Please input your guess.",
          "You guessed: " ++ toString g, x]) ↔ m = x := by
  fin_cases hm <;>
    simp [small_ne_secretLine s, big_ne_secretLine s, win_ne_secretLine s,
      small_ne_echoLine (toString g), big_ne_echoLine (toString g),
      win_ne_echoLine (toString g)]

theorem secretLine_notin_outcomes (s : Nat) :
    ("The secret number is: " ++ toString s) ∉ outcomeLines := by
  simp [outcomeLines, Ne.symm (small_ne_secretLine s),
    Ne.symm (big_ne_secretLine s), Ne.symm (win_ne_secretLine s)]

theorem echoLine_notin_outcomes (t : String) :
    ("You guessed: " ++ t) ∉ outcomeLines := by
  simp [outcomeLines, Ne.symm (small_ne_echoLine t),
    Ne.symm (big_ne_echoLine t), Ne.symm (win_ne_echoLine t)]

theorem countOutcomes_run_list (s g : Nat) (m : String) (hm : m ∈ outcomeLines) :
    countOutcomes
      ["Guess the number!",
       "The secret number is: " ++ toString s,
       "Please input your guess.",
       "You guessed: " ++ toString g, m] = 1 := by
  have h1 : decide (("The secret number is: " ++ toString s) ∈ outcomeLines)
      = false := decide_eq_false (secretLine_notin_outcomes s)
  have h2 : decide (("You guessed: " ++ toString g) ∈ outcomeLines) = false :=
    decide_eq_false (echoLine_notin_outcomes (toString g))
  have h3 : decide (("Guess the number!" : String) ∈ outcomeLines) = false := by
    decide
  have h4 : decide (("Please input your guess." : String) ∈ outcomeLines)
      = false := by decide
  have h5 : decide (m ∈ outcomeLines) = true := decide_eq_true hm
  simp [countOutcomes, List.filter, h1, h2, h3, h4, h5]

theorem countOutcomes_prefix_list (s : Nat) :
    countOutcomes
      ["Guess the number!",
       "The secret number is: " ++ toString s,
       "Please input your guess."] = 0 := by
  have h1 : decide (("The secret number is: " ++ toString s) ∈ outcomeLines)
      = false := decide_eq_false (secretLine_notin_outcomes s)
  have h3 : decide (("Guess the number!" : String) ∈ outcomeLines) = false := by
    decide
  have h4 : decide (("Please input your guess." : String) ∈ outcomeLines)
      = false := by decide
  simp [countOutcomes, List.filter, h1, h3, h4]

/-! Helper lemmas: case analysis of the two integer readings of a line. -/

theorem signSplit_nil : signSplit [] = (1, []) := rfl

theorem signSplit_plus (rest : List Char) : signSplit ('+' :: rest) = (1, rest)
  := rfl

theorem signSplit_minus (rest : List Char) : signSplit ('-' :: rest) = (-1, rest)
  := rfl

theorem denotesInt_cases (s : String) (n : Int) (hd : denotesInt s = some n) :
    ∃ ds, ds ≠ [] ∧ ds.all Char.isDigit = true ∧
      ((s.data = '+' :: ds ∧ n = (natOfDigits ds : Int)) ∨
       (s.data = '-' :: ds ∧ n = -(natOfDigits ds : Int)) ∨
       (s.data = ds ∧ n = (natOfDigits ds : Int))) := by
  simp only [denotesInt] at hd
  rcases hcs : s.data with _ | ⟨c, rest⟩
  · rw [hcs, signSplit_nil] at hd
    simp at hd
  · by_cases hp : c = '+'
    · subst hp
      simp only [hcs, signSplit_plus, one_mul] at hd
      split at hd
      · next hcond =>
        simp only [Bool.and_eq_true, Bool.not_eq_true'] at hcond
        obtain ⟨hne, hdig⟩ := hcond
        refine ⟨rest, ?_, hdig, .inl ⟨rfl, ?_⟩⟩
        · intro hnil
          rw [hnil] at hne
          simp at hne
        · have := Option.some.inj hd
          omega
      · exact absurd hd (by simp)
    · by_cases hm : c = '-'
      · subst hm
        simp only [hcs, signSplit_minus, neg_mul, one_mul] at hd
        split at hd
        · next hcond =>
          simp only [Bool.and_eq_true, Bool.not_eq_true'] at hcond
          obtain ⟨hne, hdig⟩ := hcond
          refine ⟨rest, ?_, hdig, .inr (.inl ⟨rfl, ?_⟩)⟩
          · intro hnil
            rw [hnil] at hne
            simp at hne
          · have := Option.some.inj hd
            omega
        · exact absurd hd (by simp)
      · simp only [hcs, signSplit_other c rest hp hm, one_mul] at hd
        split at hd
        · next hcond =>
          simp only [Bool.and_eq_true, Bool.not_eq_true'] at hcond
          obtain ⟨hne, hdig⟩ := hcond
          refine ⟨c :: rest, by simp, hdig, .inr (.inr ⟨rfl, ?_⟩)⟩
          have := Option.some.inj hd
          omega
        · exact absurd hd (by simp)

theorem parseU32_eq_none_of_minus (s : String) (rest : List Char)
    (h : s.data = '-' :: rest) : parseU32 s = none := by
  simp only [parseU32]
  rw [h, stripPlus_other '-' rest (by decide)]
  simp [List.all_cons]

theorem parseU32_eq_none_of_overflow (s : String)
    (hbig : 4294967296 ≤ natOfDigits (stripPlus s.data)) : parseU32 s = none := by
  simp only [parseU32]
  split
  · rfl
  · split
    · rw [if_neg (by omega)]
    · rfl

/-! The claims. -/

/-- Claim C1: for every run, the secret is in [1,100]; for every
successfully parsed guess g, the program emits the Too-small message iff
g is less than the secret, the Too-big message iff g is greater, the
You-win message iff g equals the secret, and exactly one outcome message
appears in the output. -/
theorem C1_outcome_iff (r : Nat) (l : String) (g : Nat)
    (h : parseU32 (rustTrim l) = some g) :
    (("Too small!" ∈ (mainRun r (.ok l)).stdout) ↔ g < gen_range 1 101 r) ∧
    (("Too big!" ∈ (mainRun r (.ok l)).stdout) ↔ gen_range 1 101 r < g) ∧
    (("You win!" ∈ (mainRun r (.ok l)).stdout) ↔ g = gen_range 1 101 r) ∧
    countOutcomes (mainRun r (.ok l)).stdout = 1 := by
  simp only [mainRun_ok_eq r l g h]
  rcases Nat.lt_trichotomy g (gen_range 1 101 r) with hlt | heq | hgt
  · rw [if_pos hlt]
    refine ⟨iff_of_true (by simp) hlt, ?_, ?_,
      countOutcomes_run_list _ _ _ (by simp [outcomeLines])⟩
    · rw [mem_run_list_iff _ _ _ _ (by simp [outcomeLines])]
      exact iff_of_false (by decide) (by omega)
    · rw [mem_run_list_iff _ _ _ _ (by simp [outcomeLines])]
      exact iff_of_false (by decide) (by omega)
  · rw [if_neg (by omega), if_neg (by omega)]
    refine ⟨?_, ?_, iff_of_true (by simp) heq,
      countOutcomes_run_list _ _ _ (by simp [outcomeLines])⟩
    · rw [mem_run_list_iff _ _ _ _ (by simp [outcomeLines])]
      exact iff_of_false (by decide) (by omega)
    · rw [mem_run_list_iff _ _ _ _ (by simp [outcomeLines])]
      exact iff_of_false (by decide) (by omega)
  · rw [if_neg (by omega), if_pos hgt]
    refine ⟨?_, iff_of_true (by simp) hgt, ?_,
      countOutcomes_run_list _ _ _ (by simp [outcomeLines])⟩
    · rw [mem_run_list_iff _ _ _ _ (by simp [outcomeLines])]
      exact iff_of_false (by decide) (by omega)
    · rw [mem_run_list_iff _ _ _ _ (by simp [outcomeLines])]
      exact iff_of_false (by decide) (by omega)

/-- Witness for C1 at secret 50 (r = 49) and guess 10. -/
theorem C1_outcome_iff_witness :
    parseU32 (rustTrim "10") = some 10 ∧
    ((("Too small!" ∈ (mainRun 49 (.ok "10")).stdout) ↔
        10 < gen_range 1 101 49) ∧
     (("Too big!" ∈ (mainRun 49 (.ok "10")).stdout) ↔
        gen_range 1 101 49 < 10) ∧
     (("You win!" ∈ (mainRun 49 (.ok "10")).stdout) ↔
        10 = gen_range 1 101 49) ∧
     countOutcomes (mainRun 49 (.ok "10")).stdout = 1) :=
  ⟨by decide, C1_outcome_iff 49 "10" 10 (by decide)⟩

/-- Claim C2: the generated secret is always an integer in [1,100]
(equivalently, in the closed-open range [1,101)), and every run displays
that same generated value unchanged in its second output line. -/
theorem C2_secret_range (r : Nat) (stdin : ReadLine) :
    1 ≤ gen_range 1 101 r ∧ gen_range 1 101 r ≤ 100 ∧
    (mainRun r stdin).stdout[1]? =
      some ("The secret number is: " ++ toString (gen_range 1 101 r)) := by
  refine ⟨by unfold gen_range; omega, by unfold gen_range; omega, ?_⟩
  cases stdin with
  | err => rfl
  | ok l =>
    cases hp : parseU32 (rustTrim l) with
    | none => simp [mainRun_parseFail_eq r l hp]
    | some g => simp [mainRun_ok_eq r l g hp]

/-- Claim C3: when the trimmed input line does not parse as a u32, the run
aborts with the fixed parse-failure diagnostic, and its output contains no
comparison-outcome message and no guess echo. -/
theorem C3_parse_failure (r : Nat) (l : String)
    (h : parseU32 (rustTrim l) = none) :
    (mainRun r (.ok l)).panicMsg = some "Please type a number!" ∧
    countOutcomes (mainRun r (.ok l)).stdout = 0 ∧
    (∀ m ∈ outcomeLines, m ∉ (mainRun r (.ok l)).stdout) ∧
    (∀ t : String, ("You guessed: " ++ t) ∉ (mainRun r (.ok l)).stdout) := by
  simp only [mainRun_parseFail_eq r l h]
  refine ⟨trivial, countOutcomes_prefix_list _, ?_, ?_⟩
  · intro m hm
    fin_cases hm <;>
      simp [small_ne_secretLine, big_ne_secretLine, win_ne_secretLine]
  · intro t
    simp [echoLine_ne_greeting t, echoLine_ne_prompt t,
      echoLine_ne_secretLine t]

/-- Witness for C3 at secret 50 (r = 49) and the non-numeric line abc. -/
theorem C3_parse_failure_witness :
    parseU32 (rustTrim "abc") = none ∧
    (mainRun 49 (.ok "abc")).panicMsg = some "Please type a number!" ∧
    countOutcomes (mainRun 49 (.ok "abc")).stdout = 0 :=
  ⟨by decide, (C3_parse_failure 49 "abc" (by decide)).1,
    (C3_parse_failure 49 "abc" (by decide)).2.1⟩

/-- Claim C4: on the success path, standard output is exactly the greeting,
the secret line, the prompt, the guess echo, and one of the three outcome
messages, in that order. -/
theorem C4_success_output (r : Nat) (l : String) (g : Nat)
    (h : parseU32 (rustTrim l) = some g) :
    ∃ m ∈ outcomeLines,
      (mainRun r (.ok l)).stdout =
        ["Guess the number!",
         "The secret number is: " ++ toString (gen_range 1 101 r),
         "Please input your guess.",
         "You guessed: " ++ toString g, m] := by
  refine ⟨if g < gen_range 1 101 r then "Too small!"
          else if gen_range 1 101 r < g then "Too big!" else "You win!",
    ?_, ?_⟩
  · split
    · simp [outcomeLines]
    · split <;> simp [outcomeLines]
  · simp only [mainRun_ok_eq r l g h]

/-- Witness for C4 at secret 50 (r = 49) and input line 50. -/
theorem C4_success_output_witness :
    parseU32 (rustTrim "50\n") = some 50 ∧
    ∃ m ∈ outcomeLines,
      (mainRun 49 (.ok "50\n")).stdout =
        ["Guess the number!",
         "The secret number is: " ++ toString (gen_range 1 101 49),
         "Please input your guess.",
         "You guessed: " ++ toString 50, m] :=
  ⟨by decide, C4_success_output 49 "50\n" 50 (by decide)⟩

/-- Counterexample to C5 as stated: the claim covers end-of-input as a
read failure, but at end of input read_line returns Ok with an empty
buffer, so the run reaches the parse step and aborts with the
parse-failure diagnostic, not with Failed to read line. -/
theorem C5_read_failure_counterexample :
    (mainRun 49 (.ok "")).panicMsg = some "Please type a number!" ∧
    (mainRun 49 (.ok "")).panicMsg ≠ some "Failed to read line" :=
  ⟨by decide, by decide⟩

/-- Claim C5 (amended): when the read of standard input fails with a
stream error, the run aborts with the fixed read-failure diagnostic, after
the greeting, secret line and prompt but before any echo, parsing or
comparison output; at end of input, however, the read succeeds with an
empty buffer and the run aborts with the parse-failure diagnostic
instead. -/
theorem C5_read_failure_amended (r : Nat) :
    ((mainRun r .err).panicMsg = some "Failed to read line" ∧
     (mainRun r .err).stdout =
       ["Guess the number!",
        "The secret number is: " ++ toString (gen_range 1 101 r),
        "Please input your guess."] ∧
     countOutcomes (mainRun r .err).stdout = 0 ∧
     (∀ t : String, ("You guessed: " ++ t) ∉ (mainRun r .err).stdout)) ∧
    ((mainRun r (.ok "")).panicMsg = some "Please type a number!" ∧
     (mainRun r (.ok "")).panicMsg ≠ some "Failed to read line") := by
  constructor
  · simp only [mainRun_err_eq r]
    refine ⟨trivial, trivial, countOutcomes_prefix_list _, ?_⟩
    intro t
    simp [echoLine_ne_greeting t, echoLine_ne_prompt t,
      echoLine_ne_secretLine t]
  · have h : parseU32 (rustTrim "") = none := by decide
    simp [mainRun_parseFail_eq r "" h]

/-- Claim C6: a run exits with code 0 exactly on normal completion (any
successfully parsed guess); a read failure or parse failure aborts with a
non-zero code and the corresponding fixed diagnostic on the error
stream. -/
theorem C6_exit_codes (r : Nat) (l : String) (g : Nat) :
    ((mainRun r .err).exitCode ≠ 0 ∧
      (mainRun r .err).panicMsg = some "Failed to read line") ∧
    (parseU32 (rustTrim l) = none →
      (mainRun r (.ok l)).exitCode ≠ 0 ∧
      (mainRun r (.ok l)).panicMsg = some "Please type a number!") ∧
    (parseU32 (rustTrim l) = some g →
      (mainRun r (.ok l)).exitCode = 0 ∧
      (mainRun r (.ok l)).panicMsg = none) := by
  refine ⟨⟨?_, ?_⟩, ?_, ?_⟩
  · simp [mainRun_err_eq r, RunResult.exitCode]
  · simp [mainRun_err_eq r]
  · intro h
    simp [mainRun_parseFail_eq r l h, RunResult.exitCode]
  · intro h
    simp [mainRun_ok_eq r l g h, RunResult.exitCode]

/-- Witness for C6: one read failure, one parse failure, one success. -/
theorem C6_exit_codes_witness :
    ((mainRun 49 .err).exitCode ≠ 0 ∧
      (mainRun 49 .err).panicMsg = some "Failed to read line") ∧
    ((mainRun 49 (.ok "abc")).exitCode ≠ 0 ∧
      (mainRun 49 (.ok "abc")).panicMsg = some "Please type a number!") ∧
    ((mainRun 49 (.ok "50")).exitCode = 0 ∧
      (mainRun 49 (.ok "50")).panicMsg = none) :=
  ⟨(C6_exit_codes 49 "x" 0).1,
   (C6_exit_codes 49 "abc" 0).2.1 (by decide),
   (C6_exit_codes 49 "50" 50).2.2 (by decide)⟩

/-- Claim C7: two input lines with the same trimmed text parse to the same
result and give runs with identical behaviour; in particular surrounding
whitespace and the line terminator never matter. -/
theorem C7_whitespace_invariance (r : Nat) (l1 l2 : String)
    (h : rustTrim l1 = rustTrim l2) :
    parseU32 (rustTrim l1) = parseU32 (rustTrim l2) ∧
    mainRun r (.ok l1) = mainRun r (.ok l2) := by
  constructor
  · rw [h]
  · simp only [mainRun, h]

/-- Witness for C7 on the lines of the spec example. -/
theorem C7_whitespace_invariance_witness :
    rustTrim "  42\n" = rustTrim "42" ∧
    parseU32 (rustTrim "  42\n") = some 42 ∧
    (parseU32 (rustTrim "  42\n") = parseU32 (rustTrim "42") ∧
     mainRun 49 (.ok "  42\n") = mainRun 49 (.ok "42")) :=
  ⟨by decide, by decide, C7_whitespace_invariance 49 "  42\n" "42" (by decide)⟩

/-- Claim C8: the run is deterministic: equal secrets and equal stdin
contents give identical results. -/
theorem C8_deterministic (r1 r2 : Nat) (i1 i2 : ReadLine)
    (hr : r1 = r2) (hi : i1 = i2) : mainRun r1 i1 = mainRun r2 i2 := by
  rw [hr, hi]

/-- Witness for C8 at secret 50 (r = 49) and input line 50. -/
theorem C8_deterministic_witness :
    mainRun 49 (.ok "50") = mainRun 49 (.ok "50") :=
  C8_deterministic 49 49 (.ok "50") (.ok "50") rfl rfl

/-- Claim C9: a trimmed line that denotes a base-10 integer outside the
u32 range (negative, or above 4294967295) is a parse failure, and the run
aborts with the parse-failure diagnostic. -/
theorem C9_out_of_u32_range (r : Nat) (l : String) (n : Int)
    (hd : denotesInt (rustTrim l) = some n)
    (hout : n < 0 ∨ 4294967295 < n) :
    parseU32 (rustTrim l) = none ∧
    (mainRun r (.ok l)).panicMsg = some "Please type a number!" := by
  have hnone : parseU32 (rustTrim l) = none := by
    obtain ⟨ds, hne, hdig, hcase⟩ := denotesInt_cases (rustTrim l) n hd
    rcases hcase with ⟨hplus, hn⟩ | ⟨hminus, hn⟩ | ⟨hid, hn⟩
    · apply parseU32_eq_none_of_overflow
      rw [hplus, stripPlus_plus]
      omega
    · exact parseU32_eq_none_of_minus _ _ hminus
    · apply parseU32_eq_none_of_overflow
      rcases hds : ds with _ | ⟨d, ds2⟩
      · exact absurd hds hne
      · have hd1 : d.isDigit = true := by
          rw [hds, List.all_cons, Bool.and_eq_true] at hdig
          exact hdig.1
        have hdp : d ≠ '+' := by
          intro hdp
          rw [hdp] at hd1
          exact absurd hd1 (by decide)
        rw [hid, hds, stripPlus_other d ds2 hdp, ← hds]
        omega
  exact ⟨hnone, by simp [mainRun_parseFail_eq r l hnone]⟩

/-- Witness for C9 at the negative line -5 and the oversize line
4294967296, with secret 50 (r = 49). -/
theorem C9_out_of_u32_range_witness :
    (parseU32 (rustTrim "-5") = none ∧
     (mainRun 49 (.ok "-5")).panicMsg = some "Please type a number!") ∧
    (parseU32 (rustTrim "4294967296") = none ∧
     (mainRun 49 (.ok "4294967296")).panicMsg = some "Please type a number!") :=
  ⟨C9_out_of_u32_range 49 "-5" (-5) (by decide) (by decide),
   C9_out_of_u32_range 49 "4294967296" 4294967296 (by decide) (by decide)⟩

/-- Claim C10: any successfully parsed u32 guess is accepted by the
comparison, even outside [1,100]: the run completes normally, emits
exactly one outcome message, and that message is Too-small or Too-big
according to the order of the guess and the secret (never You-win, since
the secret lies in [1,100]). -/
theorem C10_any_u32_compares (r : Nat) (l : String) (g : Nat)
    (h : parseU32 (rustTrim l) = some g) (hg : g < 1 ∨ 100 < g) :
    (mainRun r (.ok l)).panicMsg = none ∧
    countOutcomes (mainRun r (.ok l)).stdout = 1 ∧
    (("Too small!" ∈ (mainRun r (.ok l)).stdout) ↔ g < gen_range 1 101 r) ∧
    (("Too big!" ∈ (mainRun r (.ok l)).stdout) ↔ gen_range 1 101 r < g) ∧
    "You win!" ∉ (mainRun r (.ok l)).stdout := by
  have hs1 : 1 ≤ gen_range 1 101 r := by unfold gen_range; omega
  have hs2 : gen_range 1 101 r ≤ 100 := by unfold gen_range; omega
  simp only [mainRun_ok_eq r l g h]
  rcases hg with hg | hg
  · have hlt : g < gen_range 1 101 r := by omega
    rw [if_pos hlt]
    refine ⟨trivial, countOutcomes_run_list _ _ _ (by simp [outcomeLines]),
      iff_of_true (by simp) hlt, ?_, ?_⟩
    · rw [mem_run_list_iff _ _ _ _ (by simp [outcomeLines])]
      exact iff_of_false (by decide) (by omega)
    · rw [mem_run_list_iff _ _ _ _ (by simp [outcomeLines])]
      decide
  · have hgt : gen_range 1 101 r < g := by omega
    rw [if_neg (by omega), if_pos hgt]
    refine ⟨trivial, countOutcomes_run_list _ _ _ (by simp [outcomeLines]),
      ?_, iff_of_true (by simp) hgt, ?_⟩
    · rw [mem_run_list_iff _ _ _ _ (by simp [outcomeLines])]
      exact iff_of_false (by decide) (by omega)
    · rw [mem_run_list_iff _ _ _ _ (by simp [outcomeLines])]
      decide

/-- Witness for C10 at the out-of-range guesses 0 and 4294967295, with
secret 50 (r = 49). -/
theorem C10_any_u32_compares_witness :
    ((mainRun 49 (.ok "0")).panicMsg = none ∧
     countOutcomes (mainRun 49 (.ok "0")).stdout = 1 ∧
     (("Too small!" ∈ (mainRun 49 (.ok "0")).stdout) ↔
        0 < gen_range 1 101 49) ∧
     (("Too big!" ∈ (mainRun 49 (.ok "0")).stdout) ↔ gen_range 1 101 49 < 0) ∧
     "You win!" ∉ (mainRun 49 (.ok "0")).stdout) ∧
    ((mainRun 49 (.ok "4294967295")).panicMsg = none ∧
     countOutcomes (mainRun 49 (.ok "4294967295")).stdout = 1 ∧
     (("Too small!" ∈ (mainRun 49 (.ok "4294967295")).stdout) ↔
        4294967295 < gen_range 1 101 49) ∧
     (("Too big!" ∈ (mainRun 49 (.ok "4294967295")).stdout) ↔
        gen_range 1 101 49 < 4294967295) ∧
     "You win!" ∉ (mainRun 49 (.ok "4294967295")).stdout) :=
  ⟨C10_any_u32_compares 49 "0" 0 (by decide) (by decide),
   C10_any_u32_compares 49 "4294967295" 4294967295 (by decide) (by decide)⟩

end GuessGame
